import Mathlib

/-!
Shallow embedding of the request/response orchestration layer of the
Quantatative-financial-AI repository: the five Gateway operations of
src/services/geminiService.ts (inlined in src/App.tsx), the controller
submit handlers of src/App.tsx, the log ring buffer, and the citation
rendering of src/components/TerminalOutput.tsx.

Modelling conventions:
- Possibly-undefined JavaScript values become Option.
- JavaScript truthiness on strings (undefined and the empty string are
  falsy) and on numbers (undefined and 0 are falsy) is made explicit.
- The single awaited network call of each Gateway operation is a
  parameter of type Except String GenResponse: ok carries the parsed
  response, error carries a thrown message.
- An async handler body becomes a list of primitive state actions, in
  the order the code performs them, with the outbound call recorded as
  an action of its own.
-/

namespace QuantCore

/-- Log severity, from LogEntry.level in src/types.ts. -/
inductive LogLevel where
  | INFO
  | WARN
  | CRIT
deriving DecidableEq, Repr

/-- A system-log record, from LogEntry in src/types.ts. -/
structure LogEntry where
  id : String
  timestamp : String
  level : LogLevel
  message : String
deriving DecidableEq, Repr

/-- One provenance record of a grounding chunk (the web or maps object of
GroundingChunk in src/types.ts). The runtime data is cast from an untyped
API payload, so either field may be absent; both are Option String. -/
structure SourceRef where
  uri : Option String
  title : Option String
deriving DecidableEq, Repr

/-- GroundingChunk from src/types.ts: an optional web reference and an
optional maps reference. -/
structure GroundingChunk where
  web : Option SourceRef
  maps : Option SourceRef
deriving DecidableEq, Repr

/-- AnalysisResult from src/types.ts: answer text plus optional grounding
chunks. -/
structure AnalysisResult where
  text : String
  groundingChunks : Option (List GroundingChunk)
deriving DecidableEq, Repr

/-- JavaScript string truthiness: undefined and the empty string are falsy. -/
def strTruthy : Option String → Bool
  | none => false
  | some s => s != ""

/-- JavaScript disjunction a or b on two possibly-undefined strings. -/
def jsOrStr (a b : Option String) : Option String :=
  if strTruthy a then a else b

/-- JavaScript disjunction x or d where d is a string literal used as the
fallback. -/
def orDefault (x : Option String) (d : String) : String :=
  if strTruthy x then x.getD d else d

/-- JavaScript number truthiness for an optional numeric argument:
undefined and 0 are falsy. -/
def numTruthy : Option Int → Bool
  | none => false
  | some n => n != 0

/-- groundingMetadata object of one response candidate. -/
structure GroundingMetadata where
  groundingChunks : Option (List GroundingChunk)
deriving DecidableEq, Repr

/-- One response candidate, of which only groundingMetadata is consumed. -/
structure Candidate where
  groundingMetadata : Option GroundingMetadata
deriving DecidableEq, Repr

/-- The part of a generateContent response the code consumes: the text
field and the candidates array. -/
structure GenResponse where
  text : Option String
  candidates : Option (List Candidate)
deriving DecidableEq, Repr

/-- The optional chain response.candidates[0].groundingMetadata.groundingChunks
used by findPrivateEquityDeals and findResources. -/
def extractGroundingChunks (r : GenResponse) : Option (List GroundingChunk) :=
  ((r.candidates.bind List.head?).bind Candidate.groundingMetadata).bind
    GroundingMetadata.groundingChunks

/-- Outcome of the single outbound generateContent call of a Gateway
operation: ok with the parsed response, or error with a thrown message. -/
abbrev CallOutcome := Except String GenResponse

/-- Gateway operation 1, getMarketUpdates: returns the response text with
fallback on success, a fixed sentinel string when the call throws. -/
def getMarketUpdates (outcome : CallOutcome) : String :=
  match outcome with
  | .ok response => orDefault response.text "Market data unavailable."
  | .error _ => "SYSTEM ERROR: UNABLE TO FETCH MARKET DATA"

/-- The request generateQuantPrediction constructs for its one outbound
call. -/
structure QuantRequest where
  model : String
  contents : String
  systemInstruction : String
  thinkingBudget : Nat
deriving DecidableEq, Repr

/-- Request construction of Gateway operation 2, generateQuantPrediction. -/
def generateQuantPredictionRequest (query : String) : QuantRequest :=
  { model := "gemini-3-pro-preview"
    contents := query
    systemInstruction := "You are a senior quantitative analyst for a top-tier hedge fund. Provide deep, data-driven analysis. Use professional financial terminology. No emojis. Focus on risk, alpha generation, and macro factors."
    thinkingBudget := 32768 }

/-- Result mapping of Gateway operation 2, generateQuantPrediction. -/
def generateQuantPrediction (query : String) (outcome : CallOutcome) : String :=
  match outcome with
  | .ok response => orDefault response.text "Analysis failed."
  | .error _ => "SYSTEM ERROR: QUANT MODEL CONNECTION FAILED"

/-- Gateway operation 3, findPrivateEquityDeals: on success the text with
fallback plus the grounding chunks extracted from the response, on a
thrown error an AnalysisResult holding only the sentinel text. -/
def findPrivateEquityDeals (sector : String) (outcome : CallOutcome) : AnalysisResult :=
  match outcome with
  | .ok response =>
      { text := orDefault response.text "No deals found."
        groundingChunks := extractGroundingChunks response }
  | .error _ => { text := "SYSTEM ERROR: SEARCH TOOL MALFUNCTION", groundingChunks := none }

/-- A latitude/longitude pair of the retrieval configuration. The code
performs no arithmetic on coordinates, only the truthiness test and
embedding into the request, so integers model the relevant behavior. -/
structure LatLng where
  latitude : Int
  longitude : Int
deriving DecidableEq, Repr

/-- The request findResources constructs for its one outbound call. -/
structure ResourceRequest where
  model : String
  contents : String
  googleMapsTool : Bool
  retrievalLatLng : Option LatLng
deriving DecidableEq, Repr

/-- Request construction of Gateway operation 4, findResources: the
toolConfig carries a latLng retrieval constraint exactly when the
JavaScript conjunction of the two coordinates is truthy. -/
def findResourcesRequest (resourceType : String) (lat lng : Option Int) : ResourceRequest :=
  { model := "gemini-2.5-flash"
    contents := "Locate major " ++ resourceType ++ " mines, rigs, or reserves. Provide key details for each location."
    googleMapsTool := true
    retrievalLatLng :=
      if numTruthy lat && numTruthy lng then
        some { latitude := lat.getD 0, longitude := lng.getD 0 }
      else none }

/-- Result mapping of Gateway operation 4, findResources. -/
def findResources (resourceType : String) (lat lng : Option Int) (outcome : CallOutcome) :
    AnalysisResult :=
  match outcome with
  | .ok response =>
      { text := orDefault response.text "No locations found."
        groundingChunks := extractGroundingChunks response }
  | .error _ => { text := "SYSTEM ERROR: GEOSPATIAL MODULE FAILURE", groundingChunks := none }

/-- The request analyzeChartImage constructs: an inline-data part with a
declared media type plus a text part. -/
structure VisionRequest where
  model : String
  mimeType : String
  inlineData : String
  textPart : String
  systemInstruction : String
deriving DecidableEq, Repr

/-- Request construction of Gateway operation 5, analyzeChartImage: the
inline image part always declares media type image/png. -/
def analyzeChartImageRequest (base64Image : String) (prompt : String) : VisionRequest :=
  { model := "gemini-3-pro-preview"
    mimeType := "image/png"
    inlineData := base64Image
    textPart := prompt
    systemInstruction := "Analyze the provided financial chart or data. Look for technical patterns (Head and Shoulders, Double Top, etc.) and trend lines. Provide a professional assessment." }

/-- Result mapping of Gateway operation 5, analyzeChartImage. -/
def analyzeChartImage (base64Image prompt : String) (outcome : CallOutcome) : String :=
  match outcome with
  | .ok response => orDefault response.text "Analysis failed."
  | .error _ => "SYSTEM ERROR: VISION MODEL FAILURE"

/-- A normalized, renderable citation: uri and title as displayed. -/
structure Citation where
  uri : String
  title : String
deriving DecidableEq, Repr

/-- The uri TerminalOutput computes per chunk: web uri, else maps uri. -/
def chunkUri (c : GroundingChunk) : Option String :=
  jsOrStr (c.web.bind SourceRef.uri) (c.maps.bind SourceRef.uri)

/-- The title TerminalOutput computes per chunk: web title, else maps
title, else the placeholder. -/
def chunkTitle (c : GroundingChunk) : String :=
  orDefault (jsOrStr (c.web.bind SourceRef.title) (c.maps.bind SourceRef.title))
    "Unknown Source"

/-- The source-reference list TerminalOutput renders from grounding
chunks: a chunk whose computed uri is falsy renders to nothing and is
skipped; the others keep their original order. -/
def renderedCitations (chunks : List GroundingChunk) : List Citation :=
  chunks.filterMap fun c =>
    if strTruthy (chunkUri c) then some { uri := (chunkUri c).getD "", title := chunkTitle c }
    else none

/-- addLog of src/App.tsx: cons the new entry onto the first 49 existing
entries (prev.slice(0, 49)), newest first. -/
def addLog (entry : LogEntry) (prev : List LogEntry) : List LogEntry :=
  entry :: prev.take 49

/-- The controller state of src/App.tsx: one useState slot per field. -/
structure AppState where
  systemLogs : List LogEntry
  quantQuery : String
  quantResult : String
  quantLoading : Bool
  dealSector : String
  dealResult : Option AnalysisResult
  dealLoading : Bool
  resourceType : String
  resourceResult : Option AnalysisResult
  resourceLoading : Bool
  headlines : String
  analysisPrompt : String
  analysisImage : Option String
  analysisResult : String
  analysisLoading : Bool
deriving DecidableEq, Repr

/-- The useState initial values of src/App.tsx. -/
def initialState : AppState :=
  { systemLogs := []
    quantQuery := ""
    quantResult := ""
    quantLoading := false
    dealSector := ""
    dealResult := none
    dealLoading := false
    resourceType := ""
    resourceResult := none
    resourceLoading := false
    headlines := "Initializing live feed..."
    analysisPrompt := ""
    analysisImage := none
    analysisResult := ""
    analysisLoading := false }

/-- Primitive steps a submit handler performs, in program order: state
setter calls, a log append, and the single outbound Gateway call. -/
inductive Action where
  | setQuantLoading (b : Bool)
  | setQuantResult (r : String)
  | setDealLoading (b : Bool)
  | setDealResult (r : AnalysisResult)
  | setResourceLoading (b : Bool)
  | setResourceResult (r : AnalysisResult)
  | setAnalysisLoading (b : Bool)
  | setAnalysisResult (r : String)
  | logAppend (message : String) (level : LogLevel)
  | callGenerateQuantPrediction (query : String)
  | callFindPrivateEquityDeals (sector : String)
  | callFindResources (resourceType : String) (lat lng : Option Int)
  | callAnalyzeChartImage (base64Data : String) (prompt : String)
deriving DecidableEq, Repr

/-- Effect of one primitive step on the controller state. The id and
timestamp of a log entry come from the environment (Math.random and the
wall clock) and decide nothing here; they are modelled as empty strings.
The call actions mark the outbound request and touch no state. -/
def applyAction (a : Action) (s : AppState) : AppState :=
  match a with
  | .setQuantLoading b => { s with quantLoading := b }
  | .setQuantResult r => { s with quantResult := r }
  | .setDealLoading b => { s with dealLoading := b }
  | .setDealResult r => { s with dealResult := some r }
  | .setResourceLoading b => { s with resourceLoading := b }
  | .setResourceResult r => { s with resourceResult := some r }
  | .setAnalysisLoading b => { s with analysisLoading := b }
  | .setAnalysisResult r => { s with analysisResult := r }
  | .logAppend message level =>
      { s with systemLogs := addLog { id := "", timestamp := "", level := level, message := message } s.systemLogs }
  | .callGenerateQuantPrediction _ => s
  | .callFindPrivateEquityDeals _ => s
  | .callFindResources _ _ _ => s
  | .callAnalyzeChartImage _ _ => s

/-- Run a handler trace from a state. -/
def runTrace (actions : List Action) (s : AppState) : AppState :=
  actions.foldl (fun st a => applyAction a st) s

/-- All intermediate states of a run, the start state included. -/
def stateTrajectory (actions : List Action) (s : AppState) : List AppState :=
  actions.scanl (fun st a => applyAction a st) s

/-- handleQuantSubmit of src/App.tsx as a trace: no-op when quantQuery is
falsy, otherwise set loading, log, call the Gateway with the query, store
the awaited result, clear loading, log completion. The awaited Gateway
return value is the geminiResult parameter. -/
def handleQuantSubmitTrace (geminiResult : String) (s : AppState) : List Action :=
  if s.quantQuery = "" then []
  else
    [ .setQuantLoading true
    , .logAppend ("Running Quant Model (Gemini 3 Pro - Thinking Mode) for: " ++ s.quantQuery) .INFO
    , .callGenerateQuantPrediction s.quantQuery
    , .setQuantResult geminiResult
    , .setQuantLoading false
    , .logAppend "Quant Analysis Complete" .INFO ]

/-- handleDealSubmit of src/App.tsx as a trace. -/
def handleDealSubmitTrace (geminiResult : AnalysisResult) (s : AppState) : List Action :=
  if s.dealSector = "" then []
  else
    [ .setDealLoading true
    , .logAppend ("Scanning Deal Flow (Gemini 3 Flash + Search) for: " ++ s.dealSector) .INFO
    , .callFindPrivateEquityDeals s.dealSector
    , .setDealResult geminiResult
    , .setDealLoading false
    , .logAppend "Deal Scan Complete" .INFO ]

/-- handleResourceSubmit of src/App.tsx as a trace: the controller passes
no latitude or longitude to findResources. -/
def handleResourceSubmitTrace (geminiResult : AnalysisResult) (s : AppState) : List Action :=
  if s.resourceType = "" then []
  else
    [ .setResourceLoading true
    , .logAppend ("Locating Resources (Gemini 2.5 Flash + Maps) for: " ++ s.resourceType) .INFO
    , .callFindResources s.resourceType none none
    , .setResourceResult geminiResult
    , .setResourceLoading false
    , .logAppend "Geospatial Data Retrieved" .INFO ]

/-- handleAnalysisSubmit of src/App.tsx as a trace: no-op when the stored
data URL is falsy; otherwise the base64 payload is the part after the
first comma of the data URL, and the prompt falls back to the fixed
directive when analysisPrompt is empty. -/
def handleAnalysisSubmitTrace (geminiResult : String) (s : AppState) : List Action :=
  if strTruthy s.analysisImage then
    [ .setAnalysisLoading true
    , .logAppend "Analyzing Visual Data (Gemini 3 Pro Vision)..." .INFO
    , .callAnalyzeChartImage (((s.analysisImage.getD "").splitOn ",").getD 1 "")
        (if s.analysisPrompt = "" then "Analyze this financial chart." else s.analysisPrompt)
    , .setAnalysisResult geminiResult
    , .setAnalysisLoading false
    , .logAppend "Visual Analysis Complete" .INFO ]
  else []

/-- The RequestState of the QuantPrediction task: input, result, loading. -/
def quantState (s : AppState) : String × String × Bool :=
  (s.quantQuery, s.quantResult, s.quantLoading)

/-- The RequestState of the DealSourcing task. -/
def dealState (s : AppState) : String × Option AnalysisResult × Bool :=
  (s.dealSector, s.dealResult, s.dealLoading)

/-- The RequestState of the ResourceMapping task. -/
def resourceState (s : AppState) : String × Option AnalysisResult × Bool :=
  (s.resourceType, s.resourceResult, s.resourceLoading)

/-- The RequestState of the ImageAnalysis task. -/
def analysisState (s : AppState) : String × Option String × String × Bool :=
  (s.analysisPrompt, s.analysisImage, s.analysisResult, s.analysisLoading)

/-- Is this action a write to the quant loading flag. -/
def isQuantLoadingSet : Action → Bool
  | .setQuantLoading _ => true
  | _ => false

/-- Is this action a write to the deal loading flag. -/
def isDealLoadingSet : Action → Bool
  | .setDealLoading _ => true
  | _ => false

/-- Is this action a write to the resource loading flag. -/
def isResourceLoadingSet : Action → Bool
  | .setResourceLoading _ => true
  | _ => false

/-- Is this action a write to the analysis loading flag. -/
def isAnalysisLoadingSet : Action → Bool
  | .setAnalysisLoading _ => true
  | _ => false

/-- The per-task submit protocol: the loading flag of the task is written
exactly twice, true then false; the observed value of the flag along the
run starts false, becomes true, stays true across the Gateway call, and
is false from settlement on; the Gateway call sits strictly between the
two flag writes. -/
@[reducible] def submitProtocol (tr : List Action) (loadingTraj : List Bool)
    (isLoadSet : Action → Bool) (setT setF callAct : Action) : Prop :=
  tr.filter isLoadSet = [setT, setF] ∧
  loadingTraj = [false, true, true, true, true, false, false] ∧
  ∃ i j k : Nat, i < j ∧ j < k ∧
    tr.get? i = some setT ∧ tr.get? j = some callAct ∧ tr.get? k = some setF

/-- C1: when the underlying service call fails, each of the five Gateway
operations returns its fixed sentinel error value instead of raising: a
sentinel string for the three plain-text operations, and for
findPrivateEquityDeals and findResources an AnalysisResult whose text is
the sentinel and which carries no citations. Each operation is a total
function into its result type, so no failure reaches the caller as a
fault. -/
theorem c1_failure_sentinels (err query sector resourceType base64Image prompt : String)
    (lat lng : Option Int) :
    getMarketUpdates (.error err) = "SYSTEM ERROR: UNABLE TO FETCH MARKET DATA" ∧
    generateQuantPrediction query (.error err) = "SYSTEM ERROR: QUANT MODEL CONNECTION FAILED" ∧
    findPrivateEquityDeals sector (.error err) =
      { text := "SYSTEM ERROR: SEARCH TOOL MALFUNCTION", groundingChunks := none } ∧
    findResources resourceType lat lng (.error err) =
      { text := "SYSTEM ERROR: GEOSPATIAL MODULE FAILURE", groundingChunks := none } ∧
    analyzeChartImage base64Image prompt (.error err) = "SYSTEM ERROR: VISION MODEL FAILURE" :=
  ⟨rfl, rfl, rfl, rfl, rfl⟩

/-- C5: appending a 51st entry to a 50-entry log buffer yields exactly 50
entries, the new entry at the front, the oldest original entry evicted,
and the surviving entries in their previous relative order. -/
theorem c5_log_ring_buffer (entry : LogEntry) (prev : List LogEntry)
    (h : prev.length = 50) :
    (addLog entry prev).length = 50 ∧
    (addLog entry prev).head? = some entry ∧
    addLog entry prev = entry :: prev.dropLast := by
  refine ⟨?_, rfl, ?_⟩
  · simp [addLog, h]
  · simp [addLog, List.dropLast_eq_take, h]

/-- A concrete 50-entry buffer for the C5 witness. -/
def c5Prev : List LogEntry :=
  List.replicate 50 { id := "0", timestamp := "t", level := .INFO, message := "m" }

/-- The entry appended in the C5 witness. -/
def c5Entry : LogEntry :=
  { id := "new", timestamp := "t2", level := .WARN, message := "fresh" }

/-- Witness for C5 at a concrete 50-entry buffer. -/
theorem c5_log_ring_buffer_witness :
    c5Prev.length = 50 ∧
    ((addLog c5Entry c5Prev).length = 50 ∧
     (addLog c5Entry c5Prev).head? = some c5Entry ∧
     addLog c5Entry c5Prev = c5Entry :: c5Prev.dropLast) :=
  ⟨by decide, c5_log_ring_buffer c5Entry c5Prev (by decide)⟩

/-- C7 counterexample: the claim says a supplied latitude/longitude pair
always yields a location retrieval constraint equal to that pair, but for
the supplied pair (0, 20) the JavaScript conjunction lat and lng is falsy
(0 is falsy), so the request carries no constraint at all. -/
theorem c7_zero_coordinate_counterexample :
    (findResourcesRequest "lithium" (some 0) (some 20)).retrievalLatLng = none ∧
    (findResourcesRequest "lithium" (some 0) (some 20)).retrievalLatLng ≠
      some { latitude := 0, longitude := 20 } := by
  decide

/-- C7 amended: if both supplied coordinates are nonzero, the outbound
request carries a location retrieval constraint equal to the pair; if no
coordinates are supplied, or either supplied coordinate is zero (falsy in
JavaScript), the request is constructed without a location constraint. -/
theorem c7_location_constraint (resourceType : String) (a b : Int)
    (ha : a ≠ 0) (hb : b ≠ 0) :
    (findResourcesRequest resourceType (some a) (some b)).retrievalLatLng =
      some { latitude := a, longitude := b } ∧
    (findResourcesRequest resourceType none none).retrievalLatLng = none ∧
    (findResourcesRequest resourceType (some 0) (some b)).retrievalLatLng = none ∧
    (findResourcesRequest resourceType (some a) (some 0)).retrievalLatLng = none := by
  refine ⟨?_, rfl, ?_, ?_⟩ <;>
    simp [findResourcesRequest, numTruthy, ha, hb]

/-- Witness for C7 at the spec scenario coordinates (10, 20). -/
theorem c7_location_constraint_witness :
    ((10 : Int) ≠ 0 ∧ (20 : Int) ≠ 0) ∧
    ((findResourcesRequest "lithium" (some 10) (some 20)).retrievalLatLng =
      some { latitude := 10, longitude := 20 } ∧
    (findResourcesRequest "lithium" none none).retrievalLatLng = none ∧
    (findResourcesRequest "lithium" (some 0) (some 20)).retrievalLatLng = none ∧
    (findResourcesRequest "lithium" (some 10) (some 0)).retrievalLatLng = none) :=
  ⟨⟨by decide, by decide⟩, c7_location_constraint "lithium" 10 20 (by decide) (by decide)⟩

/-- C10: analyzeChartImage declares the inline image media type as
image/png in the outbound request for every input payload and prompt,
whatever the actual format of the uploaded file (the upload control
accepts any image type and the handler never inspects it). -/
theorem c10_mime_type_always_png (base64Image prompt : String) :
    (analyzeChartImageRequest base64Image prompt).mimeType = "image/png" ∧
    (analyzeChartImageRequest base64Image prompt).inlineData = base64Image :=
  ⟨rfl, rfl⟩

/-- State with a whitespace-only quant query, for the C3 counterexample. -/
def c3WhitespaceState : AppState := { initialState with quantQuery := " " }

/-- C3 counterexample: a whitespace-only input is truthy in JavaScript, so
submitting the QuantPrediction task with the single-space query does issue
a Gateway call and does change state (loading flag cycles, result and log
buffer are written), contradicting the claim that whitespace-only input is
a no-op. -/
theorem c3_whitespace_counterexample :
    Action.callGenerateQuantPrediction " " ∈ handleQuantSubmitTrace "output" c3WhitespaceState ∧
    runTrace (handleQuantSubmitTrace "output" c3WhitespaceState) c3WhitespaceState ≠
      c3WhitespaceState := by
  decide

/-- C3 amended: for all four validated-input tasks, submitting when the
required input is empty (falsy) performs no state change and issues no
Gateway call; a whitespace-only input, however, is treated as valid and
does issue a call. -/
theorem c3_empty_input_noop (rq ra : String) (rd rr : AnalysisResult) (s : AppState)
    (hq : s.quantQuery = "") (hd : s.dealSector = "") (hr : s.resourceType = "")
    (hi : strTruthy s.analysisImage = false) :
    handleQuantSubmitTrace rq s = [] ∧ runTrace (handleQuantSubmitTrace rq s) s = s ∧
    handleDealSubmitTrace rd s = [] ∧ runTrace (handleDealSubmitTrace rd s) s = s ∧
    handleResourceSubmitTrace rr s = [] ∧ runTrace (handleResourceSubmitTrace rr s) s = s ∧
    handleAnalysisSubmitTrace ra s = [] ∧ runTrace (handleAnalysisSubmitTrace ra s) s = s := by
  refine ⟨?_, ?_, ?_, ?_, ?_, ?_, ?_, ?_⟩ <;>
    simp [handleQuantSubmitTrace, handleDealSubmitTrace, handleResourceSubmitTrace,
      handleAnalysisSubmitTrace, hq, hd, hr, hi, runTrace]

/-- Witness for C3 at the initial controller state, whose four required
inputs are all empty. -/
theorem c3_empty_input_noop_witness :
    (initialState.quantQuery = "" ∧ initialState.dealSector = "" ∧
     initialState.resourceType = "" ∧ strTruthy initialState.analysisImage = false) ∧
    (handleQuantSubmitTrace "a" initialState = [] ∧
     runTrace (handleQuantSubmitTrace "a" initialState) initialState = initialState ∧
     handleDealSubmitTrace { text := "b", groundingChunks := none } initialState = [] ∧
     runTrace (handleDealSubmitTrace { text := "b", groundingChunks := none } initialState)
       initialState = initialState ∧
     handleResourceSubmitTrace { text := "c", groundingChunks := none } initialState = [] ∧
     runTrace (handleResourceSubmitTrace { text := "c", groundingChunks := none } initialState)
       initialState = initialState ∧
     handleAnalysisSubmitTrace "d" initialState = [] ∧
     runTrace (handleAnalysisSubmitTrace "d" initialState) initialState = initialState) :=
  ⟨⟨rfl, rfl, rfl, rfl⟩,
    c3_empty_input_noop "a" "d" { text := "b", groundingChunks := none }
      { text := "c", groundingChunks := none } initialState rfl rfl rfl rfl⟩

/-- The three-chunk grounding array of the C4 scenario: maps-only,
web-only, neither. -/
def c4Chunks : List GroundingChunk :=
  [ { web := none, maps := some { uri := some "maps-uri", title := some "Maps Place" } }
  , { web := some { uri := some "web-uri", title := none }, maps := none }
  , { web := none, maps := none } ]

/-- A response carrying the C4 grounding array. -/
def c4Response : GenResponse :=
  { text := some "deal memo"
    candidates := some [ { groundingMetadata := some { groundingChunks := some c4Chunks } } ] }

/-- C4 counterexample: the Gateway does not normalize or filter the
grounding metadata; on the three-entry scenario array its output carries
all three chunks, the entry with neither reference included, so the list
the Gateway produces has three entries, not two. -/
theorem c4_gateway_passthrough_counterexample :
    (findPrivateEquityDeals "fintech" (.ok c4Response)).groundingChunks = some c4Chunks ∧
    ((findPrivateEquityDeals "fintech" (.ok c4Response)).groundingChunks.getD []).length = 3 ∧
    ((findPrivateEquityDeals "fintech" (.ok c4Response)).groundingChunks.getD []).length ≠ 2 := by
  decide

/-- C4 amended: the Gateway passes the grounding metadata through
unchanged; it is the rendering component TerminalOutput that normalizes
it, and on an array holding a maps-only entry, a web-only entry and an
entry with neither, the rendered citation list has exactly two entries in
the original order, each with its uri present and with the title defaulted
to the placeholder when absent; the entry with neither pair is excluded as
non-renderable. -/
theorem c4_rendered_citations (sector mapsUri mapsTitle webUri : String) (resp : GenResponse)
    (hm : mapsUri ≠ "") (ht : mapsTitle ≠ "") (hw : webUri ≠ "")
    (hresp : extractGroundingChunks resp =
      some [ { web := none, maps := some { uri := some mapsUri, title := some mapsTitle } }
           , { web := some { uri := some webUri, title := none }, maps := none }
           , { web := none, maps := none } ]) :
    (findPrivateEquityDeals sector (.ok resp)).groundingChunks =
      some [ { web := none, maps := some { uri := some mapsUri, title := some mapsTitle } }
           , { web := some { uri := some webUri, title := none }, maps := none }
           , { web := none, maps := none } ] ∧
    renderedCitations
        [ { web := none, maps := some { uri := some mapsUri, title := some mapsTitle } }
        , { web := some { uri := some webUri, title := none }, maps := none }
        , { web := none, maps := none } ] =
      [ { uri := mapsUri, title := mapsTitle }, { uri := webUri, title := "Unknown Source" } ] := by
  constructor
  · simpa [findPrivateEquityDeals] using hresp
  · simp [renderedCitations, chunkUri, chunkTitle, jsOrStr, orDefault, strTruthy, hm, ht, hw]

/-- Witness for C4 at the concrete scenario response. -/
theorem c4_rendered_citations_witness :
    ("maps-uri" ≠ "" ∧ "Maps Place" ≠ "" ∧ "web-uri" ≠ "" ∧
     extractGroundingChunks c4Response = some c4Chunks) ∧
    ((findPrivateEquityDeals "fintech" (.ok c4Response)).groundingChunks =
      some [ { web := none, maps := some { uri := some "maps-uri", title := some "Maps Place" } }
           , { web := some { uri := some "web-uri", title := none }, maps := none }
           , { web := none, maps := none } ] ∧
    renderedCitations
        [ { web := none, maps := some { uri := some "maps-uri", title := some "Maps Place" } }
        , { web := some { uri := some "web-uri", title := none }, maps := none }
        , { web := none, maps := none } ] =
      [ { uri := "maps-uri", title := "Maps Place" }
      , { uri := "web-uri", title := "Unknown Source" } ]) :=
  ⟨⟨by decide, by decide, by decide, by decide⟩,
    c4_rendered_citations "fintech" "maps-uri" "Maps Place" "web-uri" c4Response
      (by decide) (by decide) (by decide) (by decide)⟩

/-- C2: for every task, a validated submit starting at rest writes the
loading flag true exactly once before the Gateway call and false exactly
once at its settlement; along the whole run the flag is observed false at
the start, true strictly between submission and settlement, and false from
settlement to the end, never true after settlement. -/
theorem c2_loading_protocol (s : AppState) (rq ra : String) (rd rr : AnalysisResult)
    (hq : s.quantQuery ≠ "") (hd : s.dealSector ≠ "") (hr : s.resourceType ≠ "")
    (hi : strTruthy s.analysisImage = true)
    (hq0 : s.quantLoading = false) (hd0 : s.dealLoading = false)
    (hr0 : s.resourceLoading = false) (ha0 : s.analysisLoading = false) :
    submitProtocol (handleQuantSubmitTrace rq s)
      ((stateTrajectory (handleQuantSubmitTrace rq s) s).map AppState.quantLoading)
      isQuantLoadingSet (.setQuantLoading true) (.setQuantLoading false)
      (.callGenerateQuantPrediction s.quantQuery) ∧
    submitProtocol (handleDealSubmitTrace rd s)
      ((stateTrajectory (handleDealSubmitTrace rd s) s).map AppState.dealLoading)
      isDealLoadingSet (.setDealLoading true) (.setDealLoading false)
      (.callFindPrivateEquityDeals s.dealSector) ∧
    submitProtocol (handleResourceSubmitTrace rr s)
      ((stateTrajectory (handleResourceSubmitTrace rr s) s).map AppState.resourceLoading)
      isResourceLoadingSet (.setResourceLoading true) (.setResourceLoading false)
      (.callFindResources s.resourceType none none) ∧
    submitProtocol (handleAnalysisSubmitTrace ra s)
      ((stateTrajectory (handleAnalysisSubmitTrace ra s) s).map AppState.analysisLoading)
      isAnalysisLoadingSet (.setAnalysisLoading true) (.setAnalysisLoading false)
      (.callAnalyzeChartImage (((s.analysisImage.getD "").splitOn ",").getD 1 "")
        (if s.analysisPrompt = "" then "Analyze this financial chart." else s.analysisPrompt)) := by
  refine ⟨?_, ?_, ?_, ?_⟩
  · have htr : handleQuantSubmitTrace rq s =
        [ .setQuantLoading true
        , .logAppend ("Running Quant Model (Gemini 3 Pro - Thinking Mode) for: " ++ s.quantQuery) .INFO
        , .callGenerateQuantPrediction s.quantQuery
        , .setQuantResult rq
        , .setQuantLoading false
        , .logAppend "Quant Analysis Complete" .INFO ] := by
      simp only [handleQuantSubmitTrace, if_neg hq]
    rw [htr]
    refine ⟨rfl, ?_, 0, 2, 4, by omega, by omega, rfl, rfl, rfl⟩
    show s.quantLoading :: [true, true, true, true, false, false] =
      [false, true, true, true, true, false, false]
    rw [hq0]
  · have htr : handleDealSubmitTrace rd s =
        [ .setDealLoading true
        , .logAppend ("Scanning Deal Flow (Gemini 3 Flash + Search) for: " ++ s.dealSector) .INFO
        , .callFindPrivateEquityDeals s.dealSector
        , .setDealResult rd
        , .setDealLoading false
        , .logAppend "Deal Scan Complete" .INFO ] := by
      simp only [handleDealSubmitTrace, if_neg hd]
    rw [htr]
    refine ⟨rfl, ?_, 0, 2, 4, by omega, by omega, rfl, rfl, rfl⟩
    show s.dealLoading :: [true, true, true, true, false, false] =
      [false, true, true, true, true, false, false]
    rw [hd0]
  · have htr : handleResourceSubmitTrace rr s =
        [ .setResourceLoading true
        , .logAppend ("Locating Resources (Gemini 2.5 Flash + Maps) for: " ++ s.resourceType) .INFO
        , .callFindResources s.resourceType none none
        , .setResourceResult rr
        , .setResourceLoading false
        , .logAppend "Geospatial Data Retrieved" .INFO ] := by
      simp only [handleResourceSubmitTrace, if_neg hr]
    rw [htr]
    refine ⟨rfl, ?_, 0, 2, 4, by omega, by omega, rfl, rfl, rfl⟩
    show s.resourceLoading :: [true, true, true, true, false, false] =
      [false, true, true, true, true, false, false]
    rw [hr0]
  · have htr : handleAnalysisSubmitTrace ra s =
        [ .setAnalysisLoading true
        , .logAppend "Analyzing Visual Data (Gemini 3 Pro Vision)..." .INFO
        , .callAnalyzeChartImage (((s.analysisImage.getD "").splitOn ",").getD 1 "")
            (if s.analysisPrompt = "" then "Analyze this financial chart." else s.analysisPrompt)
        , .setAnalysisResult ra
        , .setAnalysisLoading false
        , .logAppend "Visual Analysis Complete" .INFO ] := by
      simp only [handleAnalysisSubmitTrace, hi, if_true]
    rw [htr]
    refine ⟨rfl, ?_, 0, 2, 4, by omega, by omega, rfl, rfl, rfl⟩
    show s.analysisLoading :: [true, true, true, true, false, false] =
      [false, true, true, true, true, false, false]
    rw [ha0]

/-- Concrete at-rest state with all four inputs supplied, for the C2
witness. -/
def c2State : AppState :=
  { initialState with
    quantQuery := "rate cut impact on small caps"
    dealSector := "fintech"
    resourceType := "lithium"
    analysisImage := some "data:image/png;base64,AAAA" }

/-- Witness for C2 at a concrete state and concrete Gateway results. -/
theorem c2_loading_protocol_witness :
    (c2State.quantQuery ≠ "" ∧ c2State.dealSector ≠ "" ∧ c2State.resourceType ≠ "" ∧
     strTruthy c2State.analysisImage = true ∧ c2State.quantLoading = false ∧
     c2State.dealLoading = false ∧ c2State.resourceLoading = false ∧
     c2State.analysisLoading = false) ∧
    (submitProtocol (handleQuantSubmitTrace "up" c2State)
      ((stateTrajectory (handleQuantSubmitTrace "up" c2State) c2State).map AppState.quantLoading)
      isQuantLoadingSet (.setQuantLoading true) (.setQuantLoading false)
      (.callGenerateQuantPrediction c2State.quantQuery) ∧
    submitProtocol (handleDealSubmitTrace { text := "deal", groundingChunks := none } c2State)
      ((stateTrajectory (handleDealSubmitTrace { text := "deal", groundingChunks := none } c2State)
        c2State).map AppState.dealLoading)
      isDealLoadingSet (.setDealLoading true) (.setDealLoading false)
      (.callFindPrivateEquityDeals c2State.dealSector) ∧
    submitProtocol (handleResourceSubmitTrace { text := "mine", groundingChunks := none } c2State)
      ((stateTrajectory (handleResourceSubmitTrace { text := "mine", groundingChunks := none } c2State)
        c2State).map AppState.resourceLoading)
      isResourceLoadingSet (.setResourceLoading true) (.setResourceLoading false)
      (.callFindResources c2State.resourceType none none) ∧
    submitProtocol (handleAnalysisSubmitTrace "pattern" c2State)
      ((stateTrajectory (handleAnalysisSubmitTrace "pattern" c2State) c2State).map
        AppState.analysisLoading)
      isAnalysisLoadingSet (.setAnalysisLoading true) (.setAnalysisLoading false)
      (.callAnalyzeChartImage (((c2State.analysisImage.getD "").splitOn ",").getD 1 "")
        (if c2State.analysisPrompt = "" then "Analyze this financial chart."
         else c2State.analysisPrompt))) :=
  ⟨⟨by decide, by decide, by decide, by decide, by decide, by decide, by decide, by decide⟩,
    c2_loading_protocol c2State "up" "pattern" { text := "deal", groundingChunks := none }
      { text := "mine", groundingChunks := none } (by decide) (by decide) (by decide)
      (by decide) (by decide) (by decide) (by decide) (by decide)⟩

/-- C6: submitting QuantPrediction with a non-empty query invokes the
Gateway with exactly that query text, the constructed request carries that
query as contents and a fixed reasoning budget of 32768, and on a
successful settlement quantResult equals the value the Gateway returned
while quantLoading is false. -/
theorem c6_quant_submit (s : AppState) (resp : GenResponse) (h : s.quantQuery ≠ "") :
    (generateQuantPredictionRequest s.quantQuery).contents = s.quantQuery ∧
    (generateQuantPredictionRequest s.quantQuery).thinkingBudget = 32768 ∧
    Action.callGenerateQuantPrediction s.quantQuery ∈
      handleQuantSubmitTrace (generateQuantPrediction s.quantQuery (.ok resp)) s ∧
    (runTrace (handleQuantSubmitTrace (generateQuantPrediction s.quantQuery (.ok resp)) s)
      s).quantResult = generateQuantPrediction s.quantQuery (.ok resp) ∧
    (runTrace (handleQuantSubmitTrace (generateQuantPrediction s.quantQuery (.ok resp)) s)
      s).quantLoading = false := by
  have htr : handleQuantSubmitTrace (generateQuantPrediction s.quantQuery (.ok resp)) s =
      [ .setQuantLoading true
      , .logAppend ("Running Quant Model (Gemini 3 Pro - Thinking Mode) for: " ++ s.quantQuery) .INFO
      , .callGenerateQuantPrediction s.quantQuery
      , .setQuantResult (generateQuantPrediction s.quantQuery (.ok resp))
      , .setQuantLoading false
      , .logAppend "Quant Analysis Complete" .INFO ] := by
    simp only [handleQuantSubmitTrace, if_neg h]
  refine ⟨rfl, rfl, ?_, ?_, ?_⟩ <;> rw [htr]
  · exact List.mem_cons_of_mem _ (List.mem_cons_of_mem _ (List.mem_cons_self _ _))
  · rfl
  · rfl

/-- Concrete state for the C6 witness, with the spec scenario query. -/
def c6State : AppState := { initialState with quantQuery := "rate cut impact on small caps" }

/-- Concrete successful response for the C6 witness. -/
def c6Response : GenResponse := { text := some "alpha thesis", candidates := none }

/-- Witness for C6 at the spec scenario query and a concrete response. -/
theorem c6_quant_submit_witness :
    c6State.quantQuery ≠ "" ∧
    ((generateQuantPredictionRequest c6State.quantQuery).contents = c6State.quantQuery ∧
    (generateQuantPredictionRequest c6State.quantQuery).thinkingBudget = 32768 ∧
    Action.callGenerateQuantPrediction c6State.quantQuery ∈
      handleQuantSubmitTrace (generateQuantPrediction c6State.quantQuery (.ok c6Response)) c6State ∧
    (runTrace (handleQuantSubmitTrace
        (generateQuantPrediction c6State.quantQuery (.ok c6Response)) c6State)
      c6State).quantResult = generateQuantPrediction c6State.quantQuery (.ok c6Response) ∧
    (runTrace (handleQuantSubmitTrace
        (generateQuantPrediction c6State.quantQuery (.ok c6Response)) c6State)
      c6State).quantLoading = false) :=
  ⟨by decide, c6_quant_submit c6State c6Response (by decide)⟩

/-- C8: a submit of one task leaves the input, result and loading flag of
every other task unchanged, for each of the four submit handlers, from any
state and for any Gateway result. -/
theorem c8_task_isolation (rq ra : String) (rd rr : AnalysisResult) (s : AppState) :
    (dealState (runTrace (handleQuantSubmitTrace rq s) s) = dealState s ∧
     resourceState (runTrace (handleQuantSubmitTrace rq s) s) = resourceState s ∧
     analysisState (runTrace (handleQuantSubmitTrace rq s) s) = analysisState s) ∧
    (quantState (runTrace (handleDealSubmitTrace rd s) s) = quantState s ∧
     resourceState (runTrace (handleDealSubmitTrace rd s) s) = resourceState s ∧
     analysisState (runTrace (handleDealSubmitTrace rd s) s) = analysisState s) ∧
    (quantState (runTrace (handleResourceSubmitTrace rr s) s) = quantState s ∧
     dealState (runTrace (handleResourceSubmitTrace rr s) s) = dealState s ∧
     analysisState (runTrace (handleResourceSubmitTrace rr s) s) = analysisState s) ∧
    (quantState (runTrace (handleAnalysisSubmitTrace ra s) s) = quantState s ∧
     dealState (runTrace (handleAnalysisSubmitTrace ra s) s) = dealState s ∧
     resourceState (runTrace (handleAnalysisSubmitTrace ra s) s) = resourceState s) := by
  refine ⟨?_, ?_, ?_, ?_⟩
  · by_cases h : s.quantQuery = ""
    · simp only [handleQuantSubmitTrace, if_pos h]; exact ⟨rfl, rfl, rfl⟩
    · simp only [handleQuantSubmitTrace, if_neg h]; exact ⟨rfl, rfl, rfl⟩
  · by_cases h : s.dealSector = ""
    · simp only [handleDealSubmitTrace, if_pos h]; exact ⟨rfl, rfl, rfl⟩
    · simp only [handleDealSubmitTrace, if_neg h]; exact ⟨rfl, rfl, rfl⟩
  · by_cases h : s.resourceType = ""
    · simp only [handleResourceSubmitTrace, if_pos h]; exact ⟨rfl, rfl, rfl⟩
    · simp only [handleResourceSubmitTrace, if_neg h]; exact ⟨rfl, rfl, rfl⟩
  · cases hb : strTruthy s.analysisImage
    · simp only [handleAnalysisSubmitTrace, hb, Bool.false_eq_true, if_false]
      exact ⟨rfl, rfl, rfl⟩
    · simp only [handleAnalysisSubmitTrace, hb, if_true]
      exact ⟨rfl, rfl, rfl⟩

/-- C9: the controller invokes findResources with only the resource-type
string and no coordinates, so every request originating from the resource
submit handler is constructed without a location constraint; no call with
coordinates ever appears in the handler trace. -/
theorem c9_controller_never_constrains (r : AnalysisResult) (s : AppState)
    (h : s.resourceType ≠ "") :
    Action.callFindResources s.resourceType none none ∈ handleResourceSubmitTrace r s ∧
    (∀ rt lat lng, Action.callFindResources rt lat lng ∈ handleResourceSubmitTrace r s →
      rt = s.resourceType ∧ lat = none ∧ lng = none) ∧
    (findResourcesRequest s.resourceType none none).retrievalLatLng = none := by
  have htr : handleResourceSubmitTrace r s =
      [ .setResourceLoading true
      , .logAppend ("Locating Resources (Gemini 2.5 Flash + Maps) for: " ++ s.resourceType) .INFO
      , .callFindResources s.resourceType none none
      , .setResourceResult r
      , .setResourceLoading false
      , .logAppend "Geospatial Data Retrieved" .INFO ] := by
    simp only [handleResourceSubmitTrace, if_neg h]
  refine ⟨?_, ?_, rfl⟩
  · rw [htr]
    exact List.mem_cons_of_mem _ (List.mem_cons_of_mem _ (List.mem_cons_self _ _))
  · intro rt lat lng hmem
    rw [htr] at hmem
    simp only [List.mem_cons, List.not_mem_nil, or_false] at hmem
    rcases hmem with h1 | h1 | h1 | h1 | h1 | h1 <;> simp_all

/-- Concrete state for the C9 witness. -/
def c9State : AppState := { initialState with resourceType := "lithium" }

/-- Witness for C9 at a concrete state and Gateway result. -/
theorem c9_controller_never_constrains_witness :
    c9State.resourceType ≠ "" ∧
    (Action.callFindResources c9State.resourceType none none ∈
      handleResourceSubmitTrace { text := "sites", groundingChunks := none } c9State ∧
    (∀ rt lat lng, Action.callFindResources rt lat lng ∈
        handleResourceSubmitTrace { text := "sites", groundingChunks := none } c9State →
      rt = c9State.resourceType ∧ lat = none ∧ lng = none) ∧
    (findResourcesRequest c9State.resourceType none none).retrievalLatLng = none) :=
  ⟨by decide, c9_controller_never_constrains { text := "sites", groundingChunks := none }
    c9State (by decide)⟩

end QuantCore
